import Mathlib

/-!
Shallow embedding of `src/cchdo/snapshotter/__main__.py` (the cchdo/snapshotter
program) and proofs about its download-verify-cache-package pipeline.

Conventions of the embedding:
* file contents are byte lists (`Bytes`);
* the SHA-256 digest is an abstract parameter `sha256 : Bytes → String`
  (hex digest of a byte string), passed explicitly to every function that
  hashes;
* the network is a function from URL to response body;
* Python dictionaries (insertion ordered) are association lists; the helper
  functions `dictInsert`, `dictGet?`, `dictMem`, `ddGet`, `tableInsert`
  implement dict assignment, subscript lookup, membership test, and the
  two-level `defaultdict(dict)` assignment used by the program;
* raising an exception is an explicit error value.
-/

namespace Snapshotter

/-- Byte strings: the contents of files and of HTTP response bodies. -/
abbrev Bytes := List Nat

/-! ## Generic dictionary model (Python `dict`, insertion ordered) -/

/-- Python dict assignment `d[k] = v`: updates the value in place when the key
is present (keeping its position), otherwise appends the pair at the end. -/
def dictInsert {κ α : Type} [DecidableEq κ] (d : List (κ × α)) (k : κ) (v : α) :
    List (κ × α) :=
  match d with
  | [] => [(k, v)]
  | (k0, v0) :: rest =>
    if k0 = k then (k, v) :: rest else (k0, v0) :: dictInsert rest k v

/-- Python dict lookup `d[k]` as an optional value (`none` models KeyError). -/
def dictGet? {κ α : Type} [DecidableEq κ] (d : List (κ × α)) (k : κ) : Option α :=
  match d with
  | [] => none
  | (k0, v0) :: rest => if k0 = k then some v0 else dictGet? rest k

/-- Python membership test `k in d`. -/
def dictMem {κ α : Type} [DecidableEq κ] (d : List (κ × α)) (k : κ) : Bool :=
  (dictGet? d k).isSome

/-- Read access `t[k]` on a `defaultdict`: the stored value, or the default
(empty dict) when the key is absent. -/
def ddGet {κ α : Type} [DecidableEq κ] (t : List (κ × List (String × α))) (k : κ) :
    List (String × α) :=
  (dictGet? t k).getD []

/-- The two-level assignment `t[k][fname] = v` on a `defaultdict(dict)`:
ensures an entry for `k` exists (appending it on first access, as the
`defaultdict` does) and performs the inner dict assignment. -/
def tableInsert {κ α : Type} [DecidableEq κ] (t : List (κ × List (String × α)))
    (k : κ) (fname : String) (v : α) : List (κ × List (String × α)) :=
  match t with
  | [] => [(k, dictInsert [] fname v)]
  | (k0, d) :: rest =>
    if k0 = k then (k, dictInsert d fname v) :: rest
    else (k0, d) :: tableInsert rest k fname v

/-! ## The download cache operation (source lines 114-134) -/

/-- Result of one `get_and_write_to_temp` call: a normal return, or the
`Exception("bad download")` raised at source line 132 when the digest of the
freshly written file does not match the expected hash. -/
inductive FetchResult where
  | ok
  | badDownload
deriving DecidableEq

/-- The state a single `get_and_write_to_temp` call touches: the content of
the one cache path `download_cache / fhash` it is given (`none` when the path
does not exist), plus a count of the network GET requests performed so far,
used to express the network-at-most-once claims. -/
structure FetchState where
  file : Option Bytes
  fetches : Nat
deriving DecidableEq

/-- Shallow embedding of `get_and_write_to_temp` (source lines 114-134).
`net` is the body the network returns for the given URI
(`await resp.read()`), `fhash` the expected hash, and `st` the state of the
cache path. Steps, following the source exactly:
if the path exists and its digest equals `fhash`, return at once (cache hit,
no network request); if it exists with a different digest, unlink it and fall
through; fetch the URI and write the body to the path; re-read and re-hash
the path, raising `bad download` when the digest still differs — note that
the source raises without deleting the freshly written file. -/
def get_and_write_to_temp (sha256 : Bytes → String) (net : Bytes) (fhash : String)
    (st : FetchState) : FetchResult × FetchState :=
  match st.file with
  | some existing =>
    if sha256 existing = fhash then
      (FetchResult.ok, st)
    else
      let st1 : FetchState := { file := some net, fetches := st.fetches + 1 }
      if sha256 net = fhash then (FetchResult.ok, st1)
      else (FetchResult.badDownload, st1)
  | none =>
    let st1 : FetchState := { file := some net, fetches := st.fetches + 1 }
    if sha256 net = fhash then (FetchResult.ok, st1)
    else (FetchResult.badDownload, st1)

/-- A digest function for concrete test inputs: maps the byte string `[1]` to
the digest string `"1"` and everything else to `"0"`. -/
def toySha : Bytes → String := fun b => if b = [1] then "1" else "0"

/-! ## Catalog records and the eligibility filter (source lines 44-50) -/

/-- A file record from the catalog, with the fields the program reads:
`id`, `role`, `permissions`, `data_type`, `data_format`, `file_path`,
`file_hash`. -/
structure CatalogFile where
  id : Nat
  role : String
  permissions : List String
  data_type : String
  data_format : String
  file_path : String
  file_hash : String
deriving DecidableEq

/-- Shallow embedding of `in_dataset` (source lines 44-50): the record is kept
iff its role is `"dataset"`, its permissions list is empty, and its data type
is not `"trace_metals"`. -/
def in_dataset (file : CatalogFile) : Bool :=
  file.role == "dataset" && file.permissions == ([] : List String)
    && file.data_type != "trace_metals"

/-- A catalog file record as the raw JSON object actually is: each field the
predicate subscripts may be absent (`none`). Only the three fields
`in_dataset` reads are modelled. -/
structure DynCatalogFile where
  role : Option String
  permissions : Option (List String)
  data_type : Option String
deriving DecidableEq

/-- Python dictionary subscript `file[key]`: the stored value, or a raised
KeyError when the key is absent. -/
def getItem {α : Type} (v : Option α) (key : String) : Except String α :=
  match v with
  | some a => Except.ok a
  | none => Except.error ("KeyError: " ++ key)

/-- The body of `in_dataset` evaluated with Python dictionary-access
semantics: each subscript can raise KeyError, and the `and` chain
short-circuits left to right, so later fields are only accessed when the
earlier conjuncts are true. -/
def in_dataset_dyn (file : DynCatalogFile) : Except String Bool := do
  let role ← getItem file.role "role"
  if role = "dataset" then
    let perms ← getItem file.permissions "permissions"
    if perms = ([] : List String) then
      let dt ← getItem file.data_type "data_type"
      pure (dt != "trace_metals")
    else pure false
  else pure false

/-! ## Cruise records and the cruise index (source lines 59-111, 217-233) -/

/-- The `collections` sub-object of a cruise record. -/
structure Collections where
  woce_lines : List String
  oceans : List String
  programs : List String
  groups : List String
deriving DecidableEq

/-- A cruise record from the catalog, restricted to the fields the modelled
parts of the program read. The participant and note lists only feed the
free-text `cruise_text` rendering, which no claim concerns, so they are
omitted. -/
structure Cruise where
  expocode : String
  startDate : String
  endDate : String
  ship : String
  country : String
  collections : Collections
  files : List Nat
deriving DecidableEq

/-- One row of the cruise index: the dictionary built by `make_cruise_info`
(source lines 104-110) restricted to the nine columns the CSV writer extracts
(source lines 217-232, `extrasaction="ignore"` drops all other keys). -/
structure CruiseInfo where
  expocode : String
  startDate : String
  endDate : String
  ship : String
  country : String
  woce_lines : String
  programs : String
  oceans : String
  groups : String
deriving DecidableEq

/-- The dictionary component of `make_cruise_info` (source lines 59-111): the
cruise fields plus the four collection lists joined with `", "`. The free-text
first component of the source return value is not modelled. -/
def make_cruise_info (c : Cruise) : CruiseInfo :=
  { expocode := c.expocode
    startDate := c.startDate
    endDate := c.endDate
    ship := c.ship
    country := c.country
    woce_lines := String.intercalate ", " c.collections.woce_lines
    programs := String.intercalate ", " c.collections.programs
    oceans := String.intercalate ", " c.collections.oceans
    groups := String.intercalate ", " c.collections.groups }

/-- The rows of `cruise_index.csv` after the header (source lines 217-232):
one `make_cruise_info` row per catalog cruise, sorted by the `expocode`
column (`sorted(cruise_infos, key=lambda x: x["expocode"])`; Python `sorted`
is a stable merge sort). -/
def cruise_index_rows (cruises : List Cruise) : List CruiseInfo :=
  (cruises.map make_cruise_info).mergeSort
    (fun a b => decide (a.expocode ≤ b.expocode))

/-! ## The naming resolver and grouping tables (source lines 156-197) -/

/-- A `(data_type, data_format)` pair, the unit of archive grouping. -/
abbrev CategoryKey := String × String

/-- The static extension table `file_exts` (source lines 21-38), in source
order; the commented-out trace-metals and ods rows are absent, exactly as in
the source. -/
def file_exts : List (CategoryKey × String) :=
  [ (("bottle", "cf_netcdf"), "_bottle.nc"),
    (("bottle", "exchange"), "_hy1.csv"),
    (("bottle", "whp_netcdf"), "_nc_hyd.zip"),
    (("bottle", "woce"), "hy.txt"),
    (("ctd", "cf_netcdf"), "_ctd.nc"),
    (("ctd", "exchange"), "_ct1.zip"),
    (("ctd", "whp_netcdf"), "_nc_ctd.zip"),
    (("ctd", "woce"), "ct.zip"),
    (("large_volume", "woce"), "lv.txt"),
    (("documentation", "pdf"), "do.pdf"),
    (("documentation", "text"), "do.txt"),
    (("summary", "woce"), "su.txt") ]

/-- Lookup in `file_exts`: `none` is the `file_key not in file_exts` branch
(source line 183) under which the file is silently skipped. -/
def lookupExt (k : CategoryKey) : Option String :=
  match file_exts.find? (fun p => decide (p.1 = k)) with
  | some p => some p.2
  | none => none

/-- Python `expocode.replace("/", "_")` (source lines 186 and 190): `/` is a
single character, so the substring replacement is a character map. -/
def replaceSlash (s : String) : String :=
  ⟨s.data.map (fun c => if c = '/' then '_' else c)⟩

/-- The collision loop `while fname in get_files[file_key]` (source lines
188-191): starting at `count`, try `base_\x7bcount\x7dext`, incrementing the
counter while the candidate is already a key of the dict. The structural
recursion is on an explicit fuel; `existing.length + 1` fuel is always enough
because candidates for distinct counters are distinct strings, so the
zero-fuel fallback (which returns the current candidate unchecked) is never
reached when the function is called with that fuel. -/
def next_free_fname (existing : List (String × String)) (base ext : String) :
    Nat → Nat → String
  | count, 0 => base ++ "_" ++ toString count ++ ext
  | count, fuel + 1 =>
    let fname := base ++ "_" ++ toString count ++ ext
    if dictMem existing fname then next_free_fname existing base ext (count + 1) fuel
    else fname

/-- Name resolution for one file (source lines 186-191): the candidate is the
slash-replaced expocode followed by the extension suffix; on collision with a
name already present for this CategoryKey, scan counters upward from 2 until
the name is free. -/
def resolve_fname (existing : List (String × String)) (expocode ext : String) :
    String :=
  let fname := replaceSlash expocode ++ ext
  if dictMem existing fname then
    next_free_fname existing (replaceSlash expocode) ext 2 (existing.length + 1)
  else fname

/-- The two global grouping tables (source lines 40-41):
`get_files : CategoryKey → fname → url` and
`get_files_hashes : CategoryKey → fname → hash`, both insertion-ordered
`defaultdict(dict)`. -/
structure Tables where
  get_files : List (CategoryKey × List (String × String))
  get_files_hashes : List (CategoryKey × List (String × String))
deriving DecidableEq

/-- The `file_by_id` dict comprehension (source line 156): the eligible files
keyed by id; a duplicated id keeps the last record, as in Python. -/
def file_by_id (files : List CatalogFile) : List (Nat × CatalogFile) :=
  (files.filter in_dataset).foldl (fun d f => dictInsert d f.id f) []

/-- The body of the inner loop `for file_id in cruise["files"]` (source lines
176-197): skip unknown ids (the KeyError branch) and unmapped category keys,
resolve the output name, and record url and hash for it in the two tables. -/
def processFile (fbi : List (Nat × CatalogFile)) (expocode : String)
    (st : Tables) (file_id : Nat) : Tables :=
  match dictGet? fbi file_id with
  | none => st
  | some file =>
    let file_key : CategoryKey := (file.data_type, file.data_format)
    match lookupExt file_key with
    | none => st
    | some ext =>
      let fname := resolve_fname (ddGet st.get_files file_key) expocode ext
      { get_files := tableInsert st.get_files file_key fname
          ("https://cchdo.ucsd.edu" ++ file.file_path)
        get_files_hashes := tableInsert st.get_files_hashes file_key fname
          file.file_hash }

/-- The table-building part of `main` (source lines 156-197): iterate the
cruises in catalog order and, inside each, its file ids in order, starting
from the two empty tables. -/
def buildTables (cruises : List Cruise) (files : List CatalogFile) : Tables :=
  let fbi := file_by_id files
  cruises.foldl
    (fun st cruise => cruise.files.foldl (processFile fbi cruise.expocode) st)
    { get_files := [], get_files_hashes := [] }

/-! ## The fetch scheduler (source lines 235-259) -/

/-- One row of `fetch_list` (source lines 240-243): the `(file hash, url)`
pair for every name in every table entry, in table order. The hash lookup
`get_files_hashes[dtkey][fname]` cannot fail for tables built by
`buildTables` (both tables are written in lockstep); the empty-string default
stands in for that unreachable KeyError. -/
def fetch_list (t : Tables) : List (String × String) :=
  t.get_files.flatMap (fun kd =>
    kd.2.map (fun nv =>
      ((dictGet? (ddGet t.get_files_hashes kd.1) nv.1).getD "", nv.2)))

/-- The outcome of the task `get_and_write_to_temp(session,
download_cache / fhash, uri, fhash, ...)` for one fetch-list item, given the
initial contents of the cache directory (`cache`, keyed by hash) and the
network (`net`, mapping a url to the response body). -/
def task_outcome (sha256 : Bytes → String) (net : String → Bytes)
    (cache : String → Option Bytes) (item : String × String) : FetchResult :=
  (get_and_write_to_temp sha256 (net item.2) item.1 ⟨cache item.1, 0⟩).1

/-- Embedding of `await asyncio.gather(*aio_tasks)` as called at source line
259, with the default `return_exceptions=False`: if every task returns, the
list of their (None) results is returned; as soon as a task raises, the one
exception propagates out of the await, and no aggregate of the remaining
failures is ever formed. -/
def gather (results : List FetchResult) : Except String (List Unit) :=
  match results with
  | [] => Except.ok []
  | FetchResult.badDownload :: _ => Except.error "bad download"
  | FetchResult.ok :: rest => (gather rest).map (fun l => () :: l)

/-- The whole fetch phase of `main` (source lines 235-259): build the fetch
list, run every task, and gather. -/
def run_fetch_phase (sha256 : Bytes → String) (net : String → Bytes)
    (cache : String → Option Bytes) (t : Tables) : Except String (List Unit) :=
  gather ((fetch_list t).map (task_outcome sha256 net cache))

/-! ## The archive assembler (source lines 261-273) -/

/-- One entry of a zip archive: the arcname and the content of the cached
file written under it. A `none` content models the unreachable KeyError on
the hash lookup for a name that is missing from `get_files_hashes`. -/
structure ZipEntry where
  name : String
  content : Option Bytes
deriving DecidableEq

/-- Python `zipfile.ZIP_DEFLATED`. -/
def ZIP_DEFLATED : Nat := 8

/-- The `compresslevel=9` argument used for every archive. -/
def compresslevel : Nat := 9

/-- One output archive: its file name, its compression parameters
(`ZIP_DEFLATED`, `compresslevel`), and its entries in the order they are
written. -/
structure Archive where
  fname : String
  compression : Nat × Nat
  entries : List ZipEntry
deriving DecidableEq

/-- The archive-assembly loop of `main` (source lines 261-273): one archive
per `get_files` key, named `<data_type>_<data_format>.zip`, entries iterated
in the insertion order of the inner dict, each entry reading the cache at the
hash recorded for its name. `cache` maps a hash to the content of
`download_cache / hash`. -/
def buildArchives (t : Tables) (cache : String → Bytes) : List Archive :=
  t.get_files.map (fun kd =>
    { fname := kd.1.1 ++ "_" ++ kd.1.2 ++ ".zip"
      compression := (ZIP_DEFLATED, compresslevel)
      entries := kd.2.map (fun nv =>
        { name := nv.1
          content := (dictGet? (ddGet t.get_files_hashes kd.1) nv.1).map cache }) })

/-- Every hash recorded anywhere in `get_files_hashes`: the hashes on which
the archive output can possibly depend. -/
def tableHashes (t : Tables) : List String :=
  t.get_files_hashes.flatMap (fun kd => kd.2.map Prod.snd)

/-! ## Session configuration (source lines 18-19, 150, 247) -/

/-- An `aiohttp.TCPConnector`, reduced to the one parameter the program sets:
the connection limit. -/
structure TCPConnector where
  limit : Nat
deriving DecidableEq

/-- The `aiohttp.TCPConnector(limit=20)` constructed at import time (source
line 19). The call result is not bound to any name and is never passed to a
session: the object is constructed and discarded. -/
def discarded_connector : TCPConnector := ⟨20⟩

/-- The default connection limit an `aiohttp.ClientSession` uses when it is
created without an explicit connector (the aiohttp default
`TCPConnector(limit=100)`). -/
def aiohttp_default_limit : Nat := 100

/-- An `aiohttp.ClientSession`, reduced to the two constructor arguments the
program uses: the base url and the (optional) explicit connector. -/
structure ClientSession where
  base_url : Option String
  connector : Option TCPConnector
deriving DecidableEq

/-- The metadata session `aiohttp.ClientSession(CCHDO_API_BASE)` (source line
150): a base url and no explicit connector. -/
def metadata_session : ClientSession := ⟨some "https://cchdo.ucsd.edu", none⟩

/-- The session used for all file downloads, `aiohttp.ClientSession()`
(source line 247): no base url and no explicit connector. -/
def download_session : ClientSession := ⟨none, none⟩

/-- The connection limit a session actually runs under: the limit of its
explicit connector when one was passed, and the aiohttp default otherwise. -/
def connection_limit (s : ClientSession) : Nat :=
  match s.connector with
  | some c => c.limit
  | none => aiohttp_default_limit

/-! ## Concrete instances used by witnesses and counterexamples -/

/-- A one-cruise, one-file catalog: cruise `"64PE15"` with a single eligible
bottle/exchange file whose hash is `"abc123"`. -/
def sampleCruise : Cruise :=
  { expocode := "64PE15", startDate := "2015-01-01", endDate := "2015-02-01",
    ship := "Pelagia", country := "NL",
    collections := ⟨["A05"], ["atlantic"], ["GO-SHIP"], []⟩, files := [1] }

/-- The single eligible file of the sample catalog. -/
def sampleFile : CatalogFile :=
  { id := 1, role := "dataset", permissions := [], data_type := "bottle",
    data_format := "exchange", file_path := "/data/b.csv",
    file_hash := "abc123" }

/-- Cache contents for the archive-determinism witness: identical to
`sampleCacheB` on the one recorded hash, different elsewhere. -/
def sampleCacheA : String → Bytes := fun h => if h = "abc123" then [1, 2] else []

/-- Second cache contents for the archive-determinism witness. -/
def sampleCacheB : String → Bytes := fun h => if h = "abc123" then [1, 2] else [9]

/-- Concrete tables with one category key and two recorded downloads, used to
exercise the fetch phase on failing items. -/
def twoItemTables : Tables :=
  { get_files :=
      [(("bottle", "exchange"),
        [("A_hy1.csv", "u1"), ("B_hy1.csv", "u2")])]
    get_files_hashes :=
      [(("bottle", "exchange"),
        [("A_hy1.csv", "h1"), ("B_hy1.csv", "h2")])] }

/-! ## Theorems about the download cache (claims C1, C2, C3) -/

/-- C1 (amended): cache idempotence holds from the first success on. If a
call to `get_and_write_to_temp` returns normally, then the next call with the
same `(url, expected_hash)` is a pure cache hit: it returns normally and
leaves the state — cached file and fetch counter — exactly unchanged; the
cached file is present with a digest equal to the expected hash; and the two
calls together performed at most one network GET. -/
theorem ensure_idempotent_after_success (sha256 : Bytes → String) (net : Bytes)
    (fhash : String) (st0 : FetchState)
    (h1 : (get_and_write_to_temp sha256 net fhash st0).1 = FetchResult.ok) :
    get_and_write_to_temp sha256 net fhash
        (get_and_write_to_temp sha256 net fhash st0).2
      = (FetchResult.ok, (get_and_write_to_temp sha256 net fhash st0).2)
    ∧ (∃ c, (get_and_write_to_temp sha256 net fhash st0).2.file = some c
        ∧ sha256 c = fhash)
    ∧ (get_and_write_to_temp sha256 net fhash st0).2.fetches ≤ st0.fetches + 1 := by
  rcases st0 with ⟨file, n⟩
  cases file with
  | some c =>
    by_cases hc : sha256 c = fhash
    · refine ⟨by simp [get_and_write_to_temp, hc], ⟨c, by simp [get_and_write_to_temp, hc], hc⟩,
        by simp [get_and_write_to_temp, hc]⟩
    · by_cases hn : sha256 net = fhash
      · refine ⟨by simp [get_and_write_to_temp, hc, hn],
          ⟨net, by simp [get_and_write_to_temp, hc, hn], hn⟩,
          by simp [get_and_write_to_temp, hc, hn]⟩
      · simp [get_and_write_to_temp, hc, hn] at h1
  | none =>
    by_cases hn : sha256 net = fhash
    · refine ⟨by simp [get_and_write_to_temp, hn],
        ⟨net, by simp [get_and_write_to_temp, hn], hn⟩,
        by simp [get_and_write_to_temp, hn]⟩
    · simp [get_and_write_to_temp, hn] at h1

/-- Witness for `ensure_idempotent_after_success` at a concrete input: with
the toy digest, fetching content `[1]` against expected hash `"1"` from an
empty cache succeeds, and the second call leaves the state unchanged. -/
theorem ensure_idempotent_after_success_witness :
    (get_and_write_to_temp toySha [1] "1" ⟨none, 0⟩).1 = FetchResult.ok
    ∧ get_and_write_to_temp toySha [1] "1"
        (get_and_write_to_temp toySha [1] "1" ⟨none, 0⟩).2
      = (FetchResult.ok, (get_and_write_to_temp toySha [1] "1" ⟨none, 0⟩).2) :=
  ⟨by decide, (ensure_idempotent_after_success toySha [1] "1" ⟨none, 0⟩ (by decide)).1⟩

/-- Counterexample to C1 as stated: when the network body hashes to a value
different from the expected hash, two calls in sequence from an empty cache
perform two network GETs, not at most one — the first call fails after
fetching and leaves a mismatched file, and the second call deletes it and
fetches again. -/
theorem ensure_twice_not_at_most_one_fetch :
    ¬ ((get_and_write_to_temp toySha [2] "1"
          (get_and_write_to_temp toySha [2] "1" ⟨none, 0⟩).2).2.fetches ≤ 1) := by
  decide

/-- C2: cache self-healing. If the cache file exists with a digest different
from the expected hash, the call deletes it and fetches the URL anew (exactly
one new network GET, and the post-state file is the freshly fetched body);
afterwards either the call returned normally and the digest of the file
equals the expected hash, or the call raised the integrity error and the
digest still differs. -/
theorem ensure_self_healing (sha256 : Bytes → String) (net : Bytes) (fhash : String)
    (st : FetchState) (c : Bytes) (hfile : st.file = some c)
    (hbad : sha256 c ≠ fhash) :
    (get_and_write_to_temp sha256 net fhash st).2.fetches = st.fetches + 1
    ∧ (get_and_write_to_temp sha256 net fhash st).2.file = some net
    ∧ ((get_and_write_to_temp sha256 net fhash st).1 = FetchResult.ok
          ∧ sha256 net = fhash
        ∨ (get_and_write_to_temp sha256 net fhash st).1 = FetchResult.badDownload
          ∧ sha256 net ≠ fhash) := by
  rcases st with ⟨file, n⟩
  simp only at hfile
  subst hfile
  by_cases hn : sha256 net = fhash
  · exact ⟨by simp [get_and_write_to_temp, hbad, hn],
      by simp [get_and_write_to_temp, hbad, hn],
      Or.inl ⟨by simp [get_and_write_to_temp, hbad, hn], hn⟩⟩
  · exact ⟨by simp [get_and_write_to_temp, hbad, hn],
      by simp [get_and_write_to_temp, hbad, hn],
      Or.inr ⟨by simp [get_and_write_to_temp, hbad, hn], hn⟩⟩

/-- Witness for `ensure_self_healing` at a concrete input: a stale cache file
`[2]` (digest `"0"`) under expected hash `"1"` is replaced by the freshly
fetched body, with one additional network GET. -/
theorem ensure_self_healing_witness :
    toySha [2] ≠ "1"
    ∧ (get_and_write_to_temp toySha [1] "1" ⟨some [2], 5⟩).2.fetches = 6 :=
  ⟨by decide, by
    simpa using (ensure_self_healing toySha [1] "1" ⟨some [2], 5⟩ [2] rfl (by decide)).1⟩

/-- Counterexample to C3 as stated: a fetch whose body hashes to a value
different from the expected hash raises the integrity error, but the written
file is not deleted — after the failed call a file is still present at the
cache path. -/
theorem bad_download_file_remains :
    (get_and_write_to_temp toySha [3] "1" ⟨none, 0⟩).1 = FetchResult.badDownload
    ∧ (get_and_write_to_temp toySha [3] "1" ⟨none, 0⟩).2.file ≠ none := by
  decide

/-- C3 (amended): whenever a call raises the `bad download` integrity error,
the freshly written file remains at the cache path with the mismatched
content — the source raises at line 132 without unlinking; the file is only
removed by the stale-file check of a later call. -/
theorem bad_download_leaves_written_file (sha256 : Bytes → String) (net : Bytes)
    (fhash : String) (st : FetchState)
    (h : (get_and_write_to_temp sha256 net fhash st).1 = FetchResult.badDownload) :
    (get_and_write_to_temp sha256 net fhash st).2.file = some net
    ∧ sha256 net ≠ fhash := by
  rcases st with ⟨file, n⟩
  cases file with
  | some c =>
    by_cases hc : sha256 c = fhash
    · simp [get_and_write_to_temp, hc] at h
    · by_cases hn : sha256 net = fhash
      · simp [get_and_write_to_temp, hc, hn] at h
      · exact ⟨by simp [get_and_write_to_temp, hc, hn], hn⟩
  | none =>
    by_cases hn : sha256 net = fhash
    · simp [get_and_write_to_temp, hn] at h
    · exact ⟨by simp [get_and_write_to_temp, hn], hn⟩

/-- Witness for `bad_download_leaves_written_file` at a concrete input: the
failed download of body `[4]` against expected hash `"1"` leaves `[4]` in the
cache. -/
theorem bad_download_leaves_written_file_witness :
    (get_and_write_to_temp toySha [4] "1" ⟨none, 0⟩).1 = FetchResult.badDownload
    ∧ (get_and_write_to_temp toySha [4] "1" ⟨none, 0⟩).2.file = some [4] :=
  ⟨by decide, (bad_download_leaves_written_file toySha [4] "1" ⟨none, 0⟩ (by decide)).1⟩

/-! ## Theorems about the eligibility filter (claims C7, C8) -/

/-- C7: the eligibility predicate returns false exactly when the permissions
list is non-empty, or the role is not `"dataset"`, or the data type is the
restricted `"trace_metals"` category, and returns true otherwise. It is a
plain function of the record, hence has no side effects. -/
theorem in_dataset_spec (f : CatalogFile) :
    in_dataset f = false ↔
      (f.permissions ≠ [] ∨ f.role ≠ "dataset" ∨ f.data_type = "trace_metals") := by
  simp [in_dataset]
  tauto

/-- Counterexample to C8 as stated: on a record whose `role` key is absent,
`in_dataset` raises a KeyError instead of treating the record as ineligible
and returning false. -/
theorem in_dataset_dyn_raises_on_missing_role :
    in_dataset_dyn ⟨none, some [], some "bottle"⟩ = Except.error "KeyError: role" := rfl

/-- C8 (amended): the eligibility predicate is total — returning the boolean
of the pure predicate — on records where the accessed fields are present, but
on a record whose `role` key is absent every evaluation raises
`KeyError: role` rather than returning false. -/
theorem in_dataset_dyn_total_on_present_fields (r : String) (p : List String)
    (d : String) :
    in_dataset_dyn ⟨some r, some p, some d⟩
      = Except.ok (in_dataset ⟨0, r, p, d, "", "", ""⟩)
    ∧ ∀ (perms : Option (List String)) (dt : Option String),
        in_dataset_dyn ⟨none, perms, dt⟩ = Except.error "KeyError: role" := by
  constructor
  · by_cases hr : r = "dataset" <;> by_cases hp : p = ([] : List String) <;>
      simp [in_dataset_dyn, in_dataset, getItem, Bind.bind, Except.bind, pure,
        Except.pure, hr, hp]
  · intro perms dt
    rfl

/-! ## Theorems about the cruise index (claim C10) -/

/-- C10: for every catalog, the rows of `cruise_index.csv` after the header
are sorted in ascending order of the `expocode` column — whatever order the
catalog returned the cruises in — and they are a permutation of the list with
exactly one `make_cruise_info` row per catalog cruise. -/
theorem cruise_index_rows_sorted (cruises : List Cruise) :
    List.Pairwise (fun a b : CruiseInfo => a.expocode ≤ b.expocode)
      (cruise_index_rows cruises)
    ∧ (cruise_index_rows cruises).Perm (cruises.map make_cruise_info) := by
  constructor
  · have h := @List.sorted_mergeSort CruiseInfo
      (fun a b => decide (a.expocode ≤ b.expocode))
      (fun a b c hab hbc => by
        simp only [decide_eq_true_eq] at *
        exact le_trans hab hbc)
      (fun a b => by
        simp only [Bool.or_eq_true, decide_eq_true_eq]
        exact le_total a.expocode b.expocode)
      (cruises.map make_cruise_info)
    exact h.imp (fun hab => by simpa using hab)
  · exact List.mergeSort_perm _ _

/-! ## Theorems about the fetch scheduler (claims C6, C9) -/

/-- Gather without `return_exceptions` turns any failing task into a single
propagated exception. -/
theorem gather_error_of_mem (results : List FetchResult)
    (h : FetchResult.badDownload ∈ results) :
    gather results = Except.error "bad download" := by
  induction results with
  | nil => cases h
  | cons r rest ih =>
    cases r with
    | badDownload => rfl
    | ok =>
      have hrest : FetchResult.badDownload ∈ rest := by
        simpa using h
      simp [gather, ih hrest, Except.map]

/-- Counterexample to C6 as stated: a run whose fetch list has two items that
both fail the integrity check. The fetch phase surfaces a single propagated
`bad download` exception — not the complete two-element failure list — and
never reaches the aggregate-and-report state the claim describes. -/
theorem fetch_phase_single_error :
    ((fetch_list twoItemTables).map
        (task_outcome toySha (fun _ => [9]) (fun _ => none))
      = [FetchResult.badDownload, FetchResult.badDownload])
    ∧ run_fetch_phase toySha (fun _ => [9]) (fun _ => none) twoItemTables
        = Except.error "bad download" :=
  ⟨by decide, rfl⟩

/-- C6 (amended): the scheduler is not fail-soft. `asyncio.gather` is called
without `return_exceptions`, so whenever any item of the fetch list fails its
integrity check, the whole fetch phase raises that single `bad download`
exception out of the `await`; no aggregated failure list exists, and the code
after the gather (archive assembly) is skipped on any failure. -/
theorem scheduler_aborts_on_failure (sha256 : Bytes → String) (net : String → Bytes)
    (cache : String → Option Bytes) (t : Tables)
    (h : FetchResult.badDownload ∈
      (fetch_list t).map (task_outcome sha256 net cache)) :
    run_fetch_phase sha256 net cache t = Except.error "bad download" :=
  gather_error_of_mem _ h

/-- Witness for `scheduler_aborts_on_failure` at a concrete input: the
two-item tables with a network whose bodies hash to `"0"`, matching neither
recorded hash. -/
theorem scheduler_aborts_on_failure_witness :
    FetchResult.badDownload ∈
      (fetch_list twoItemTables).map (task_outcome toySha (fun _ => [8]) (fun _ => none))
    ∧ run_fetch_phase toySha (fun _ => [8]) (fun _ => none) twoItemTables
        = Except.error "bad download" :=
  ⟨by decide,
    scheduler_aborts_on_failure toySha (fun _ => [8]) (fun _ => none) twoItemTables
      (by decide)⟩

/-- C9: the concurrency cap of 20 is configured but never applied. The
`TCPConnector(limit=20)` built at source line 19 is discarded — it is not
passed to any session — and the session that performs all file downloads
(source line 247) is created without a connector, so it runs under the
aiohttp default limit of 100 simultaneous connections, not under a cap of
20. -/
theorem connector_limit_unused :
    download_session.connector = none
    ∧ connection_limit download_session = 100
    ∧ discarded_connector.limit = 20
    ∧ connection_limit download_session ≠ discarded_connector.limit := by
  decide

/-! ## Theorems about the archive assembler (claim C4) -/

/-- A value returned by a dict lookup is among the stored values. -/
theorem dictGet?_mem_snd {κ α : Type} [DecidableEq κ] (d : List (κ × α)) (k : κ)
    (v : α) (h : dictGet? d k = some v) : v ∈ d.map Prod.snd := by
  induction d with
  | nil => simp [dictGet?] at h
  | cons kv rest ih =>
    rcases kv with ⟨k0, v0⟩
    by_cases hk : k0 = k
    · simp only [dictGet?, if_pos hk, Option.some.injEq] at h
      simp [h]
    · simp only [dictGet?, if_neg hk] at h
      simp [ih h]

/-- A hash stored under any key of a hash table is among all stored hashes. -/
theorem ddGet_snd_subset (t : List (CategoryKey × List (String × String)))
    (k : CategoryKey) (h : String) (hmem : h ∈ (ddGet t k).map Prod.snd) :
    h ∈ t.flatMap (fun kd => kd.2.map Prod.snd) := by
  unfold ddGet at hmem
  cases hg : dictGet? t k with
  | none => rw [hg] at hmem; simp at hmem
  | some d =>
    rw [hg] at hmem
    have hd : d ∈ t.map Prod.snd := dictGet?_mem_snd t k d hg
    rcases List.mem_map.mp hd with ⟨kd, hkd, hEq⟩
    exact List.mem_flatMap.mpr ⟨kd, hkd, by rw [hEq]; simpa using hmem⟩

/-- Archives depend on the cache only at the recorded hashes. -/
theorem buildArchives_agree (t : Tables) (c1 c2 : String → Bytes)
    (hagree : ∀ h ∈ tableHashes t, c1 h = c2 h) :
    buildArchives t c1 = buildArchives t c2 := by
  unfold buildArchives
  apply List.map_congr_left
  intro kd hkd
  simp only [Archive.mk.injEq, true_and]
  apply List.map_congr_left
  intro nv hnv
  simp only [ZipEntry.mk.injEq, true_and]
  cases hg : dictGet? (ddGet t.get_files_hashes kd.1) nv.1 with
  | none => simp
  | some hsh =>
    have hh : hsh ∈ tableHashes t :=
      ddGet_snd_subset t.get_files_hashes kd.1 hsh
        (dictGet?_mem_snd (ddGet t.get_files_hashes kd.1) nv.1 hsh hg)
    simp [hagree hsh hh]

/-- C4: archive determinism. For one catalog and any two cache states that
agree on every recorded hash (identical file contents), the assembled
archives are identical; every archive uses the fixed compression parameters
`(ZIP_DEFLATED, compresslevel=9)`; and the entry names of each archive are
exactly the names of its grouping table in insertion order — the stable order
established by the naming resolver, not an alphabetical or hash order. -/
theorem archive_determinism (cruises : List Cruise) (files : List CatalogFile)
    (c1 c2 : String → Bytes)
    (hagree : ∀ h ∈ tableHashes (buildTables cruises files), c1 h = c2 h) :
    buildArchives (buildTables cruises files) c1
      = buildArchives (buildTables cruises files) c2
    ∧ (∀ a ∈ buildArchives (buildTables cruises files) c1,
        a.compression = (ZIP_DEFLATED, compresslevel))
    ∧ (buildArchives (buildTables cruises files) c1).map
        (fun a => a.entries.map ZipEntry.name)
      = (buildTables cruises files).get_files.map (fun kd => kd.2.map Prod.fst) := by
  refine ⟨buildArchives_agree _ c1 c2 hagree, ?_, ?_⟩
  · intro a ha
    unfold buildArchives at ha
    rcases List.mem_map.mp ha with ⟨kd, hkd, hEq⟩
    rw [← hEq]
  · unfold buildArchives
    simp [List.map_map]

/-- Witness for `archive_determinism` at a concrete input: the one-cruise
sample catalog, and two caches agreeing on the only recorded hash. -/
theorem archive_determinism_witness :
    sampleCacheA "abc123" = sampleCacheB "abc123"
    ∧ buildArchives (buildTables [sampleCruise] [sampleFile]) sampleCacheA
        = buildArchives (buildTables [sampleCruise] [sampleFile]) sampleCacheB :=
  ⟨by decide,
    (archive_determinism [sampleCruise] [sampleFile] sampleCacheA sampleCacheB
      (by decide)).1⟩

/-! ## Theorems about the naming resolver (claim C5) -/

/-- Appending the same suffix to strings of different lengths gives different
strings. -/
theorem append_right_ne_len (a b ext : String) (hlen : a.length ≠ b.length) :
    (a ++ ext = b ++ ext) = False := by
  simp only [eq_iff_iff, iff_false]
  intro h
  apply hlen
  have hl := congrArg String.length h
  rw [String.length_append, String.length_append] at hl
  omega

/-- Appending the same suffix to different strings of equal length gives
different strings. -/
theorem append_right_ne (a b ext : String) (hne : a.data ≠ b.data)
    (hlen : a.length = b.length) : (a ++ ext = b ++ ext) = False := by
  simp only [eq_iff_iff, iff_false]
  intro h
  apply hne
  have hd := congrArg String.data h
  rw [String.data_append, String.data_append] at hd
  refine (List.append_inj hd ?_).1
  have la : a.data.length = a.length := rfl
  have lb : b.data.length = b.length := rfl
  rw [la, lb, hlen]

/-- Numeral rendering used by the collision counter. -/
theorem toString_two : toString (2 : Nat) = "2" := rfl

/-- Numeral rendering used by the collision counter. -/
theorem toString_three : toString (3 : Nat) = "3" := rfl

/-- The base candidate name differs from the counter-2 candidate. -/
theorem base_ne_counter2 (ext : String) : ("X" ++ ext = "X_2" ++ ext) = False :=
  append_right_ne_len _ _ _ (by decide)

/-- The base candidate name differs from the counter-3 candidate. -/
theorem base_ne_counter3 (ext : String) : ("X" ++ ext = "X_3" ++ ext) = False :=
  append_right_ne_len _ _ _ (by decide)

/-- The counter-2 candidate differs from the counter-3 candidate. -/
theorem counter2_ne_counter3 (ext : String) : ("X_2" ++ ext = "X_3" ++ ext) = False :=
  append_right_ne _ _ _ (by decide) (by decide)

/-- Slash replacement is the identity on the slash-free expocode `"X"`. -/
theorem replaceSlash_X : replaceSlash "X" = "X" := rfl

/-- A key that the extension table maps cannot be the excluded trace-metals
category: every key of `file_exts` has a different data type. -/
theorem lookupExt_ne_trace_metals (dt df ext : String)
    (hext : lookupExt (dt, df) = some ext) : (dt != "trace_metals") = true := by
  unfold lookupExt at hext
  cases hf : List.find? (fun p => decide (p.1 = (dt, df))) file_exts with
  | none => rw [hf] at hext; cases hext
  | some p =>
    have hp : p.1 = (dt, df) :=
      of_decide_eq_true
        (@List.find?_some (CategoryKey × String) (fun q => decide (q.1 = (dt, df))) p
          file_exts hf)
    have hmem : p ∈ file_exts :=
      @List.mem_of_find?_eq_some (CategoryKey × String)
        (fun q => decide (q.1 = (dt, df))) p file_exts hf
    simp only [file_exts, List.mem_cons, List.not_mem_nil, or_false] at hmem
    rcases hmem with rfl | rfl | rfl | rfl | rfl | rfl | rfl | rfl | rfl | rfl | rfl | rfl <;>
      (obtain ⟨h1x, h2x⟩ := Prod.mk.inj hp; subst h1x; decide)

/-- C5: the collision scheme of the naming resolver. For any category key the
extension table maps, three eligible file records with expocode `"X"` and that
key, processed in catalog order, resolve to the names `X<suffix>`,
`X_2<suffix>`, `X_3<suffix>` (in that table order): the counter scans upward
from 2 until the name is unique within the key, and the counter is inserted
between the expocode and the extension suffix. -/
theorem naming_resolver_collisions (dt df ext : String)
    (hext : lookupExt (dt, df) = some ext)
    (p1 p2 p3 q1 q2 q3 : String) :
    (buildTables
        [{ expocode := "X", startDate := "", endDate := "", ship := "",
           country := "", collections := ⟨[], [], [], []⟩, files := [1, 2, 3] }]
        [{ id := 1, role := "dataset", permissions := [], data_type := dt,
           data_format := df, file_path := p1, file_hash := q1 },
         { id := 2, role := "dataset", permissions := [], data_type := dt,
           data_format := df, file_path := p2, file_hash := q2 },
         { id := 3, role := "dataset", permissions := [], data_type := dt,
           data_format := df, file_path := p3, file_hash := q3 }]).get_files
      = [((dt, df),
          [("X" ++ ext, "https://cchdo.ucsd.edu" ++ p1),
           ("X_2" ++ ext, "https://cchdo.ucsd.edu" ++ p2),
           ("X_3" ++ ext, "https://cchdo.ucsd.edu" ++ p3)])] := by
  have hdt := lookupExt_ne_trace_metals dt df ext hext
  simp [buildTables, file_by_id, List.filter_cons, in_dataset, hdt,
    processFile, dictGet?, ddGet, tableInsert, dictInsert, dictMem,
    resolve_fname, next_free_fname, replaceSlash_X, toString_two, toString_three,
    hext, base_ne_counter2, base_ne_counter3, counter2_ne_counter3]

/-- Witness for `naming_resolver_collisions` at a concrete input: the
bottle/exchange key, whose suffix is `_hy1.csv`. -/
theorem naming_resolver_collisions_witness :
    lookupExt ("bottle", "exchange") = some "_hy1.csv"
    ∧ (buildTables
        [{ expocode := "X", startDate := "", endDate := "", ship := "",
           country := "", collections := ⟨[], [], [], []⟩, files := [1, 2, 3] }]
        [{ id := 1, role := "dataset", permissions := [], data_type := "bottle",
           data_format := "exchange", file_path := "/a", file_hash := "ha" },
         { id := 2, role := "dataset", permissions := [], data_type := "bottle",
           data_format := "exchange", file_path := "/b", file_hash := "hb" },
         { id := 3, role := "dataset", permissions := [], data_type := "bottle",
           data_format := "exchange", file_path := "/c", file_hash := "hc" }]).get_files
      = [(("bottle", "exchange"),
          [("X" ++ "_hy1.csv", "https://cchdo.ucsd.edu" ++ "/a"),
           ("X_2" ++ "_hy1.csv", "https://cchdo.ucsd.edu" ++ "/b"),
           ("X_3" ++ "_hy1.csv", "https://cchdo.ucsd.edu" ++ "/c")])] :=
  ⟨by decide,
    naming_resolver_collisions "bottle" "exchange" "_hy1.csv" (by decide)
      "/a" "/b" "/c" "ha" "hb" "hc"⟩

end Snapshotter

